import Mathlib

/-! Shallow embedding of the two-player snake game
(src/SnakeGame/SnakeGame.cpp): grid geometry, the Food sampling loop,
the Snake body operations and the Game per-tick update logic.
Randomness (raylib's GetRandomValue(0, cellCount-1) pairs) is modelled
as an explicit stream of grid cells, wall-clock time (GetTime) as an
explicit integer argument, and the unbounded sampling loop of
Food::GenRandPos with explicit fuel, none modelling the loop still
spinning when the budget runs out.  The globals gameOver and
winnerMessage are folded into the Game structure, since the engine is
their only writer. -/

/-- Grid positions: integer pairs, matching the small-integer Vector2
values the game stores.  (-1, -1) is the inactive-power-up sentinel. -/
abbrev Pos := Int × Int

/-- cellCount = 25, the number of cells in one row or column. -/
abbrev cellCount : Nat := 25

/-- raymath Vector2Add on grid vectors. -/
def Vector2Add (a b : Pos) : Pos := (a.1 + b.1, a.2 + b.2)

/-- raymath Vector2Subtract on grid vectors. -/
def Vector2Subtract (a b : Pos) : Pos := (a.1 - b.1, a.2 - b.2)

/-- elementInDeque: front-to-back linear scan for a Vector2 in a deque. -/
def elementInDeque (element : Pos) : List Pos → Bool
  | [] => false
  | x :: xs => if x = element then true else elementInDeque element xs

/-- One raw sample of GetRandomValue(0, cellCount-1) twice: by the
raylib contract the two components lie in [0, cellCount). -/
abbrev Cell := Fin cellCount × Fin cellCount

/-- Food::randomCell: turn one raw random sample into a position. -/
def randomCell (c : Cell) : Pos := ((c.1 : Int), (c.2 : Int))

/-- Food::GenRandPos: sample a random cell, and keep resampling while
the sample is occupied by either body.  The source loop is unbounded;
fuel makes it explicit, with none when the budget is exhausted.
The index i walks the random stream. -/
def GenRandPos (rng : Nat → Cell) (snake1Body snake2Body : List Pos) :
    Nat → Nat → Option Pos
  | _, 0 => none
  | i, fuel + 1 =>
    let position := randomCell (rng i)
    if elementInDeque position snake1Body || elementInDeque position snake2Body then
      GenRandPos rng snake1Body snake2Body (i + 1) fuel
    else
      some position

/-- Snake: body deque (head first), current direction, pending-growth
flag.  Color is presentation-only and omitted. -/
structure Snake where
  body : List Pos
  direction : Pos
  addSegment : Bool

/-- Snake::Snake(startPos, startDirection, color): three segments,
head at startPos, each further segment one step backward; the
addSegment member initializer is false. -/
def Snake.create (startPos startDirection : Pos) : Snake :=
  { body := [startPos, Vector2Subtract startPos startDirection,
      Vector2Subtract (Vector2Subtract startPos startDirection) startDirection],
    direction := startDirection,
    addSegment := false }

/-- Snake::update: push the new head (old head plus direction) at the
front; pop the tail unless a segment is pending, in which case keep it
and clear the flag.  body[0] on an empty deque is undefined behaviour
in the source; headD supplies an arbitrary default. -/
def Snake.update (s : Snake) : Snake :=
  let pushed := Vector2Add (s.body.headD (0, 0)) s.direction :: s.body
  if !s.addSegment then
    { s with body := pushed.dropLast }
  else
    { s with body := pushed, addSegment := false }

/-- Snake::reset(startPos, startDirection): rebuild the fixed
3-segment body and direction.  Note: the source does not touch
addSegment here. -/
def Snake.reset (s : Snake) (startPos startDirection : Pos) : Snake :=
  { s with
    body := [startPos, Vector2Subtract startPos startDirection,
      Vector2Subtract (Vector2Subtract startPos startDirection) startDirection],
    direction := startDirection }

/-- Game state: both snakes, the food and power-up positions, the
running flag, scores, power-up visibility and timers, and the global
gameOver / winnerMessage pair the engine writes. -/
structure Game where
  snake1 : Snake
  snake2 : Snake
  foodPos : Pos
  powerupPos : Pos
  running : Bool
  score1 : Int
  score2 : Int
  showPowerup : Bool
  powerupOnTime : Int
  powerupOffTime : Int
  powerupTimeGap : Int
  gameOver : Bool
  winnerMessage : String

/-- Game::Game(): snakes at their fixed poses, food and power-up both
given random positions avoiding the two fresh bodies (the power-up
constructor also calls GenRandPos), scores 0, power-up hidden, timers
0, powerupTimeGap = GetRandomValue(15, 16) modelled by the gapChoice
sample, running, and the globals in their initial state. -/
def Game.create (rngF rngP : Nat → Cell) (fuel : Nat) (gapChoice : Fin 2) :
    Option Game :=
  let snake1 := Snake.create (6, 9) (1, 0)
  let snake2 := Snake.create (18, 9) (-1, 0)
  match GenRandPos rngF snake1.body snake2.body 0 fuel with
  | none => none
  | some foodPos =>
    match GenRandPos rngP snake1.body snake2.body 0 fuel with
    | none => none
    | some powerupPos =>
      some
        { snake1 := snake1, snake2 := snake2, foodPos := foodPos,
          powerupPos := powerupPos, running := true, score1 := 0, score2 := 0,
          showPowerup := false, powerupOnTime := 0, powerupOffTime := 0,
          powerupTimeGap := (15 : Int) + (gapChoice.val : Int),
          gameOver := false, winnerMessage := "" }

/-- Game::checkFoodCollision(snake1, score1): if the (already moved)
head equals the food, relocate the food avoiding both current bodies,
request growth and add 1 to the score. -/
def Game.checkFoodCollision1 (rng : Nat → Cell) (fuel : Nat) (g : Game) :
    Option Game :=
  if g.snake1.body.headD (0, 0) = g.foodPos then
    match GenRandPos rng g.snake1.body g.snake2.body 0 fuel with
    | none => none
    | some p =>
      some { g with
          foodPos := p,
          snake1 := { g.snake1 with addSegment := true },
          score1 := g.score1 + 1 }
  else
    some g

/-- Game::checkFoodCollision(snake2, score2). -/
def Game.checkFoodCollision2 (rng : Nat → Cell) (fuel : Nat) (g : Game) :
    Option Game :=
  if g.snake2.body.headD (0, 0) = g.foodPos then
    match GenRandPos rng g.snake1.body g.snake2.body 0 fuel with
    | none => none
    | some p =>
      some { g with
          foodPos := p,
          snake2 := { g.snake2 with addSegment := true },
          score2 := g.score2 + 1 }
  else
    some g

/-- Game::checkPowerupCollision(snake1, score1): if the head equals
the power-up position, set the sentinel position, hide the power-up,
request growth and add 5 to the score.  Note the source never tests
showPowerup here. -/
def Game.checkPowerupCollision1 (g : Game) : Game :=
  if g.snake1.body.headD (0, 0) = g.powerupPos then
    { g with
        powerupPos := (-1, -1), showPowerup := false,
        snake1 := { g.snake1 with addSegment := true },
        score1 := g.score1 + 5 }
  else
    g

/-- Game::checkPowerupCollision(snake2, score2). -/
def Game.checkPowerupCollision2 (g : Game) : Game :=
  if g.snake2.body.headD (0, 0) = g.powerupPos then
    { g with
        powerupPos := (-1, -1), showPowerup := false,
        snake2 := { g.snake2 with addSegment := true },
        score2 := g.score2 + 5 }
  else
    g

/-- Game::isOutOfBounds: head outside [0, cellCount) in either axis. -/
def Game.isOutOfBounds (s : Snake) : Bool :=
  let h := s.body.headD (0, 0)
  h.1 < 0 || h.1 ≥ (cellCount : Int) || h.2 < 0 || h.2 ≥ (cellCount : Int)

/-- Game::selfCollision: head found among the non-head segments. -/
def Game.selfCollision (s : Snake) : Bool :=
  elementInDeque (s.body.headD (0, 0)) s.body.tail

/-- Game::declareWinner: stop the game, set the global gameOver flag
and overwrite the global winner message. -/
def Game.declareWinner (winner : Nat) (g : Game) : Game :=
  { g with
      running := false, gameOver := true,
      winnerMessage := if winner = 1 then "Player 1 Wins!" else "Player 2 Wins!" }

/-- Game::checkCollisions: the six checks run as six independent ifs,
in source order, with no else and no early return. -/
def Game.checkCollisions (g : Game) : Game :=
  let g1 := if Game.isOutOfBounds g.snake1 then Game.declareWinner 2 g else g
  let g2 := if Game.isOutOfBounds g1.snake2 then Game.declareWinner 1 g1 else g1
  let g3 := if Game.selfCollision g2.snake1 then Game.declareWinner 2 g2 else g2
  let g4 := if Game.selfCollision g3.snake2 then Game.declareWinner 1 g3 else g3
  let g5 := if elementInDeque (g4.snake1.body.headD (0, 0)) g4.snake2.body then
      Game.declareWinner 2 g4 else g4
  if elementInDeque (g5.snake2.body.headD (0, 0)) g5.snake1.body then
    Game.declareWinner 1 g5 else g5

/-- Game::togglePowerupOff: if visible and eventTriggered(10,
powerupOnTime) fires (at least 10 time-units since powerupOnTime),
hide the power-up and set the sentinel position; eventTriggered also
stamps powerupOnTime with the current time.  powerupOffTime is not
touched. -/
def Game.togglePowerupOff (t : Int) (g : Game) : Game :=
  if g.showPowerup = true ∧ 10 ≤ t - g.powerupOnTime then
    { g with
        powerupOnTime := t, showPowerup := false, powerupPos := (-1, -1) }
  else
    g

/-- Game::togglePowerupOn: if hidden and eventTriggered(powerupTimeGap,
powerupOffTime) fires, stamp powerupOffTime := t, show the power-up,
set powerupOnTime := GetTime() = t and relocate it avoiding both
bodies. -/
def Game.togglePowerupOn (t : Int) (rng : Nat → Cell) (fuel : Nat) (g : Game) :
    Option Game :=
  if g.showPowerup = false ∧ g.powerupTimeGap ≤ t - g.powerupOffTime then
    match GenRandPos rng g.snake1.body g.snake2.body 0 fuel with
    | none => none
    | some p =>
      some { g with
          powerupOffTime := t, showPowerup := true,
          powerupOnTime := t, powerupPos := p }
  else
    some g

/-- Game::update: when running, move both snakes, run both food
checks, both power-up checks, the collision checks, then the two
power-up visibility toggles.  rngA, rngB and rngP are the random
streams consumed by the three possible GenRandPos calls of the tick. -/
def Game.update (t : Int) (rngA rngB rngP : Nat → Cell) (fuel : Nat) (g : Game) :
    Option Game :=
  if g.running then
    let gm : Game := { g with
        snake1 := g.snake1.update, snake2 := g.snake2.update }
    match Game.checkFoodCollision1 rngA fuel gm with
    | none => none
    | some g2 =>
      match Game.checkFoodCollision2 rngB fuel g2 with
      | none => none
      | some g3 =>
        Game.togglePowerupOn t rngP fuel
          (Game.togglePowerupOff t
            (Game.checkCollisions
              (Game.checkPowerupCollision2 (Game.checkPowerupCollision1 g3))))
  else
    some g

/-- Game::reset: both snakes back to their fixed poses, food relocated
avoiding the fresh bodies, power-up deactivated and hidden, scores
zeroed, running again, globals cleared.  The power-up timers and
powerupTimeGap are not touched. -/
def Game.reset (rngF : Nat → Cell) (fuel : Nat) (g : Game) : Option Game :=
  let snake1 := g.snake1.reset (6, 9) (1, 0)
  let snake2 := g.snake2.reset (18, 9) (-1, 0)
  match GenRandPos rngF snake1.body snake2.body 0 fuel with
  | none => none
  | some p =>
    some { g with
        snake1 := snake1, snake2 := snake2, foodPos := p,
        powerupPos := (-1, -1), showPowerup := false, score1 := 0, score2 := 0,
        running := true, gameOver := false, winnerMessage := "" }

/-- The per-key steering guards of main(): each arrow/WASD key request
is applied only when the current direction's conflicting component
test passes (e.g. KEY_UP requires direction.y != 1).  The spec calls
this gate setDirection. -/
def setDirection (cur request : Pos) : Pos :=
  if request = ((0 : Int), (-1 : Int)) then (if cur.2 ≠ 1 then request else cur)
  else if request = ((0 : Int), (1 : Int)) then (if cur.2 ≠ -1 then request else cur)
  else if request = ((1 : Int), (0 : Int)) then (if cur.1 ≠ -1 then request else cur)
  else if request = ((-1 : Int), (0 : Int)) then (if cur.1 ≠ 1 then request else cur)
  else cur

/-- The four unit directions a snake can be steered to. -/
def dirList : List Pos := [(0, -1), (0, 1), (1, 0), (-1, 0)]

/-- The algebraic opposite of a direction. -/
def opposite (d : Pos) : Pos := (-d.1, -d.2)

/-! ### Helper lemmas about the sampling loop and the check pipeline -/

theorem elementInDeque_eq_true_iff {e : Pos} {l : List Pos} :
    elementInDeque e l = true ↔ e ∈ l := by
  induction l with
  | nil => simp [elementInDeque]
  | cons x xs ih =>
    by_cases h : x = e
    · simp [elementInDeque, h]
    · simp only [elementInDeque, if_neg h, ih, List.mem_cons]
      constructor
      · exact Or.inr
      · rintro (he | he)
        · exact absurd he.symm h
        · exact he

theorem randomCell_mem_grid (c : Cell) :
    0 ≤ (randomCell c).1 ∧ (randomCell c).1 < (cellCount : Int) ∧
      0 ≤ (randomCell c).2 ∧ (randomCell c).2 < (cellCount : Int) := by
  simp only [randomCell]
  refine ⟨Int.ofNat_nonneg _, ?_, Int.ofNat_nonneg _, ?_⟩
  · exact_mod_cast c.1.isLt
  · exact_mod_cast c.2.isLt

theorem GenRandPos_eq_some (rng : Nat → Cell) (b1 b2 : List Pos) (fuel : Nat) :
    ∀ (i : Nat) (p : Pos), GenRandPos rng b1 b2 i fuel = some p →
      elementInDeque p b1 = false ∧ elementInDeque p b2 = false ∧
        ∃ c : Cell, p = randomCell c := by
  induction fuel with
  | zero => intro i p h; simp [GenRandPos] at h
  | succ n ih =>
    intro i p h
    simp only [GenRandPos] at h
    by_cases hc : (elementInDeque (randomCell (rng i)) b1 ||
        elementInDeque (randomCell (rng i)) b2) = true
    · rw [if_pos hc] at h
      exact ih (i + 1) p h
    · rw [if_neg hc] at h
      injection h with h
      subst h
      simp only [Bool.or_eq_true, not_or, Bool.not_eq_true] at hc
      exact ⟨hc.1, hc.2, rng i, rfl⟩

theorem GenRandPos_isSome (rng : Nat → Cell) (b1 b2 : List Pos) :
    ∀ (fuel i k : Nat), k < fuel →
      elementInDeque (randomCell (rng (i + k))) b1 = false →
      elementInDeque (randomCell (rng (i + k))) b2 = false →
      ∃ p, GenRandPos rng b1 b2 i fuel = some p := by
  intro fuel
  induction fuel with
  | zero => intro i k hk; omega
  | succ n ih =>
    intro i k hk h1 h2
    by_cases hc : (elementInDeque (randomCell (rng i)) b1 ||
        elementInDeque (randomCell (rng i)) b2) = true
    · cases k with
      | zero =>
        rw [Nat.add_zero] at h1 h2
        rw [h1, h2] at hc
        simp at hc
      | succ m =>
        have hrw : i + (m + 1) = (i + 1) + m := by omega
        rw [hrw] at h1 h2
        obtain ⟨p, hp⟩ := ih (i + 1) m (by omega) h1 h2
        exact ⟨p, by simp only [GenRandPos, if_pos hc]; exact hp⟩
    · exact ⟨randomCell (rng i), by simp only [GenRandPos, if_neg hc]⟩

theorem GenRandPos_none_of_occupied (rng : Nat → Cell) (b1 b2 : List Pos)
    (h : ∀ n, elementInDeque (randomCell (rng n)) b1 = true) :
    ∀ (fuel i : Nat), GenRandPos rng b1 b2 i fuel = none := by
  intro fuel
  induction fuel with
  | zero => intro i; rfl
  | succ n ih =>
    intro i
    simp only [GenRandPos, h i, Bool.true_or, if_pos]
    exact ih (i + 1)

@[simp] theorem declareWinner_snake1 (w : Nat) (g : Game) :
    (Game.declareWinner w g).snake1 = g.snake1 := rfl

@[simp] theorem declareWinner_snake2 (w : Nat) (g : Game) :
    (Game.declareWinner w g).snake2 = g.snake2 := rfl

@[simp] theorem declareWinner_foodPos (w : Nat) (g : Game) :
    (Game.declareWinner w g).foodPos = g.foodPos := rfl

@[simp] theorem declareWinner_powerupPos (w : Nat) (g : Game) :
    (Game.declareWinner w g).powerupPos = g.powerupPos := rfl

@[simp] theorem declareWinner_showPowerup (w : Nat) (g : Game) :
    (Game.declareWinner w g).showPowerup = g.showPowerup := rfl

@[simp] theorem declareWinner_score1 (w : Nat) (g : Game) :
    (Game.declareWinner w g).score1 = g.score1 := rfl

@[simp] theorem declareWinner_score2 (w : Nat) (g : Game) :
    (Game.declareWinner w g).score2 = g.score2 := rfl

@[simp] theorem declareWinner_powerupOnTime (w : Nat) (g : Game) :
    (Game.declareWinner w g).powerupOnTime = g.powerupOnTime := rfl

@[simp] theorem declareWinner_powerupOffTime (w : Nat) (g : Game) :
    (Game.declareWinner w g).powerupOffTime = g.powerupOffTime := rfl

@[simp] theorem declareWinner_powerupTimeGap (w : Nat) (g : Game) :
    (Game.declareWinner w g).powerupTimeGap = g.powerupTimeGap := rfl

@[simp] theorem declareWinner_declareWinner (w w' : Nat) (g : Game) :
    Game.declareWinner w (Game.declareWinner w' g) = Game.declareWinner w g := rfl

/-- The six collision conditions of Game::checkCollisions, in source
order, each paired with the winner it declares. -/
def collisionChecks (g : Game) : List (Bool × Nat) :=
  [(Game.isOutOfBounds g.snake1, 2), (Game.isOutOfBounds g.snake2, 1),
   (Game.selfCollision g.snake1, 2), (Game.selfCollision g.snake2, 1),
   (elementInDeque (g.snake1.body.headD (0, 0)) g.snake2.body, 2),
   (elementInDeque (g.snake2.body.headD (0, 0)) g.snake1.body, 1)]

/-- The winner of the last check that fires, if any check fires. -/
def lastFiredWinner (checks : List (Bool × Nat)) : Option Nat :=
  checks.foldl (fun acc c => if c.1 then some c.2 else acc) none

theorem checkCollisions_spec (g : Game) :
    Game.checkCollisions g =
      match lastFiredWinner (collisionChecks g) with
      | some w => Game.declareWinner w g
      | none => g := by
  unfold Game.checkCollisions collisionChecks lastFiredWinner
  by_cases h1 : Game.isOutOfBounds g.snake1 = true <;>
  by_cases h2 : Game.isOutOfBounds g.snake2 = true <;>
  by_cases h3 : Game.selfCollision g.snake1 = true <;>
  by_cases h4 : Game.selfCollision g.snake2 = true <;>
  by_cases h5 : elementInDeque (g.snake1.body.headD (0, 0)) g.snake2.body = true <;>
  by_cases h6 : elementInDeque (g.snake2.body.headD (0, 0)) g.snake1.body = true <;>
    simp only [h1, h2, h3, h4, h5, h6, declareWinner_snake1, declareWinner_snake2,
      declareWinner_declareWinner, List.foldl, eq_self_iff_true, if_true, if_false,
      ite_true, ite_false, Bool.false_eq_true, Bool.true_eq_false]

/-! ### Concrete inputs used by counterexamples and witnesses -/

/-- A random stream that always samples cell (0, 0). -/
def rngZ : Nat → Cell := fun _ => (0, 0)

/-- A post-movement state in which both heads are out of bounds at
once (head-to-tail poses are otherwise legal 3-segment bodies). -/
def cexGame1 : Game :=
  { snake1 := ⟨[(-1, 9), (0, 9), (1, 9)], (-1, 0), false⟩,
    snake2 := ⟨[(25, 9), (24, 9), (23, 9)], (1, 0), false⟩,
    foodPos := (5, 5), powerupPos := (-1, -1), running := true,
    score1 := 0, score2 := 0, showPowerup := false,
    powerupOnTime := 0, powerupOffTime := 0, powerupTimeGap := 15,
    gameOver := false, winnerMessage := "" }

/-- C1 counterexample: with both heads out of bounds after movement,
the first matching rule in the fixed order is rule 1 (snake A out of
bounds, so snake B should be the sole declared winner, message
"Player 2 Wins!"), yet checkCollisions records "Player 1 Wins!":
the later matching rule overwrote the earlier one's verdict. -/
theorem C1_first_match_refuted :
    Game.isOutOfBounds cexGame1.snake1 = true ∧
    Game.isOutOfBounds cexGame1.snake2 = true ∧
    (Game.checkCollisions cexGame1).winnerMessage = "Player 1 Wins!" ∧
    (Game.checkCollisions cexGame1).winnerMessage ≠ "Player 2 Wins!" := by
  refine ⟨rfl, rfl, rfl, ?_⟩
  decide

/-- C1 (amended): the six collision rules are evaluated in the fixed
source order after movement and consumption, but as six independent
ifs: every matching rule fires declareWinner, and each call overwrites
the recorded message, so for a post-movement state in which several
conditions hold it is the LAST matching rule in the order that
determines the sole declared winner in the game-over state; when no
rule matches the state is unchanged. -/
theorem C1_collision_resolution_last_match (g : Game) :
    Game.checkCollisions g =
      match lastFiredWinner (collisionChecks g) with
      | some w => Game.declareWinner w g
      | none => g :=
  checkCollisions_spec g

/-- C2: Snake::update prepends a new head equal to the old head plus
the current direction; with no growth pending it removes the tail and
preserves the body length, and with growth pending it keeps the tail,
grows the body by exactly one and clears the pending flag. -/
theorem C2_snake_update_step (s : Snake) (hd : Pos) (rest : List Pos)
    (hbody : s.body = hd :: rest) :
    (s.addSegment = false →
      s.update.body = Vector2Add hd s.direction :: (hd :: rest).dropLast ∧
      s.update.body.length = s.body.length ∧
      s.update.addSegment = false) ∧
    (s.addSegment = true →
      s.update.body = Vector2Add hd s.direction :: hd :: rest ∧
      s.update.body.length = s.body.length + 1 ∧
      s.update.addSegment = false) := by
  constructor <;> intro hseg <;>
    simp [Snake.update, hbody, hseg, List.length_dropLast]

/-- A concrete snake for the C2 witness. -/
def witSnake : Snake :=
  { body := [(5, 9), (4, 9), (3, 9)], direction := (1, 0), addSegment := false }

/-- C2 witness: the theorem applied to a concrete 3-segment snake. -/
theorem C2_snake_update_step_witness :
    witSnake.update.body =
      Vector2Add (5, 9) witSnake.direction :: ([(5, 9), (4, 9), (3, 9)] : List Pos).dropLast ∧
    witSnake.update.body.length = witSnake.body.length ∧
    witSnake.update.addSegment = false :=
  (C2_snake_update_step witSnake (5, 9) [(4, 9), (3, 9)] rfl).1 rfl

/-- C6: a steering request is a no-op exactly when the requested
direction is the algebraic opposite of the current one; otherwise it
replaces the direction.  cur and request range over the four unit
directions the key handler can see. -/
theorem C6_setDirection_gate (cur request : Pos)
    (hcur : cur ∈ dirList) (hreq : request ∈ dirList) :
    setDirection cur request = if request = opposite cur then cur else request := by
  fin_cases hcur <;> fin_cases hreq <;> decide

/-- C6 witness: an opposite request (left while moving right) is
rejected. -/
theorem C6_setDirection_gate_witness :
    setDirection (1, 0) (-1, 0) =
      if ((-1, 0) : Pos) = opposite (1, 0) then ((1, 0) : Pos) else (-1, 0) :=
  C6_setDirection_gate (1, 0) (-1, 0) (by decide) (by decide)

/-- C7: whenever the sampling loop of Food::GenRandPos returns a
position, that position lies inside the grid in both coordinates and
is a member of neither supplied body sequence. -/
theorem C7_GenRandPos_valid (rng : Nat → Cell) (b1 b2 : List Pos)
    (i fuel : Nat) (p : Pos)
    (h : GenRandPos rng b1 b2 i fuel = some p) :
    (0 ≤ p.1 ∧ p.1 < (cellCount : Int) ∧ 0 ≤ p.2 ∧ p.2 < (cellCount : Int)) ∧
    elementInDeque p b1 = false ∧ elementInDeque p b2 = false := by
  obtain ⟨h1, h2, c, hp⟩ := GenRandPos_eq_some rng b1 b2 fuel i p h
  subst hp
  exact ⟨randomCell_mem_grid c, h1, h2⟩

/-- C7 witness: a concrete successful sample. -/
theorem C7_GenRandPos_valid_witness :
    (0 ≤ ((0, 0) : Pos).1 ∧ ((0, 0) : Pos).1 < (cellCount : Int) ∧
      0 ≤ ((0, 0) : Pos).2 ∧ ((0, 0) : Pos).2 < (cellCount : Int)) ∧
    elementInDeque (0, 0) [] = false ∧ elementInDeque (0, 0) [] = false :=
  C7_GenRandPos_valid rngZ [] [] 0 1 (0, 0) rfl

/-! ### The fully occupied grid and loop divergence -/

/-- Every grid cell, row-major. -/
def fullGrid : List Pos :=
  (List.range (cellCount * cellCount)).map
    (fun k => (((k % cellCount : Nat) : Int), ((k / cellCount : Nat) : Int)))

/-- occupied covers the grid: every cell the sampler can produce is a
member. -/
def coversGrid (occupied : List Pos) : Prop :=
  ∀ c : Cell, elementInDeque (randomCell c) occupied = true

/-- The sampling loop of Food::GenRandPos returns nothing at every
fuel budget: the unbounded source loop never exits. -/
def GenRandPosDiverges (rng : Nat → Cell) (b1 b2 : List Pos) : Prop :=
  ∀ fuel i, GenRandPos rng b1 b2 i fuel = none

theorem fullGrid_covers : coversGrid fullGrid := by
  rintro ⟨x, y⟩
  rw [elementInDeque_eq_true_iff]
  refine List.mem_map.mpr ⟨x.val + cellCount * y.val, ?_, ?_⟩
  · rw [List.mem_range]
    have hx : x.val < 25 := x.isLt
    have hy : y.val < 25 := y.isLt
    show x.val + 25 * y.val < 25 * 25
    omega
  · have h1 : (x.val + cellCount * y.val) % cellCount = x.val := by
      rw [Nat.add_mul_mod_self_left]
      exact Nat.mod_eq_of_lt x.isLt
    have h2 : (x.val + cellCount * y.val) / cellCount = y.val := by
      rw [Nat.add_mul_div_left _ _ (by norm_num : 0 < cellCount),
        Nat.div_eq_of_lt x.isLt]
      omega
    simp [randomCell, h1, h2]

/-- C10 counterexample: with the two occupied sequences jointly
covering the whole grid, the sampling loop of Food::GenRandPos never
returns, at any fuel budget: the code loops forever and surfaces no
reportable or fatal condition (its only outcome type is a position). -/
theorem C10_full_grid_loops_forever :
    coversGrid fullGrid ∧ GenRandPosDiverges rngZ fullGrid [] :=
  ⟨fullGrid_covers, fun fuel i =>
    GenRandPos_none_of_occupied rngZ fullGrid []
      (fun n => fullGrid_covers (rngZ n)) fuel i⟩

/-- C10 (amended): the sampling loop terminates precisely as driven by
the sample stream: it returns as soon as the stream produces a cell
free of both bodies, and when the bodies leave some free cell and the
sampler can reach every cell, such a sample exists, so the loop
terminates; in the degenerate fully-covered case it loops forever with
no error surfaced (see the counterexample). -/
theorem C10_GenRandPos_terminates (rng : Nat → Cell) (b1 b2 : List Pos) :
    (∀ n : Nat,
      elementInDeque (randomCell (rng n)) b1 = false →
      elementInDeque (randomCell (rng n)) b2 = false →
      ∃ p, GenRandPos rng b1 b2 0 (n + 1) = some p) ∧
    ((∃ c : Cell, elementInDeque (randomCell c) b1 = false ∧
        elementInDeque (randomCell c) b2 = false) →
      (∀ c : Cell, ∃ n, rng n = c) →
      ∃ fuel p, GenRandPos rng b1 b2 0 fuel = some p) := by
  constructor
  · intro n h1 h2
    exact GenRandPos_isSome rng b1 b2 (n + 1) 0 n (by omega)
      (by simpa using h1) (by simpa using h2)
  · rintro ⟨c, hc1, hc2⟩ hfair
    obtain ⟨n, hn⟩ := hfair c
    subst hn
    obtain ⟨p, hp⟩ := GenRandPos_isSome rng b1 b2 (n + 1) 0 n (by omega)
      (by simpa using hc1) (by simpa using hc2)
    exact ⟨n + 1, p, hp⟩

/-- C10 witness: the loop returns immediately when the first sample is
free. -/
theorem C10_GenRandPos_terminates_witness :
    ∃ p, GenRandPos rngZ [(1, 1)] [] 0 1 = some p :=
  (C10_GenRandPos_terminates rngZ [(1, 1)] []).1 0 (by decide) (by decide)

/-! ### Per-stage lemmas for the tick pipeline -/

theorem checkFood1_miss (rng : Nat → Cell) (fuel : Nat) (g : Game)
    (h : ¬ g.snake1.body.headD (0, 0) = g.foodPos) :
    Game.checkFoodCollision1 rng fuel g = some g := by
  unfold Game.checkFoodCollision1
  rw [if_neg h]

theorem checkFood2_miss (rng : Nat → Cell) (fuel : Nat) (g : Game)
    (h : ¬ g.snake2.body.headD (0, 0) = g.foodPos) :
    Game.checkFoodCollision2 rng fuel g = some g := by
  unfold Game.checkFoodCollision2
  rw [if_neg h]

theorem checkPow1_miss (g : Game)
    (h : ¬ g.snake1.body.headD (0, 0) = g.powerupPos) :
    Game.checkPowerupCollision1 g = g := by
  unfold Game.checkPowerupCollision1
  rw [if_neg h]

theorem checkPow2_miss (g : Game)
    (h : ¬ g.snake2.body.headD (0, 0) = g.powerupPos) :
    Game.checkPowerupCollision2 g = g := by
  unfold Game.checkPowerupCollision2
  rw [if_neg h]

theorem checkPow1_hit (g : Game)
    (h : g.snake1.body.headD (0, 0) = g.powerupPos) :
    Game.checkPowerupCollision1 g =
      { g with
          powerupPos := (-1, -1), showPowerup := false,
          snake1 := { g.snake1 with addSegment := true },
          score1 := g.score1 + 5 } := by
  unfold Game.checkPowerupCollision1
  rw [if_pos h]

theorem checkPow2_hit (g : Game)
    (h : g.snake2.body.headD (0, 0) = g.powerupPos) :
    Game.checkPowerupCollision2 g =
      { g with
          powerupPos := (-1, -1), showPowerup := false,
          snake2 := { g.snake2 with addSegment := true },
          score2 := g.score2 + 5 } := by
  unfold Game.checkPowerupCollision2
  rw [if_pos h]

theorem toggleOff_hidden (t : Int) (g : Game) (h : g.showPowerup = false) :
    Game.togglePowerupOff t g = g := by
  unfold Game.togglePowerupOff
  rw [if_neg (fun hc => by rw [h] at hc; exact Bool.false_ne_true hc.1)]

theorem toggleOn_early (t : Int) (rng : Nat → Cell) (fuel : Nat) (g : Game)
    (h : t - g.powerupOffTime < g.powerupTimeGap) :
    Game.togglePowerupOn t rng fuel g = some g := by
  unfold Game.togglePowerupOn
  rw [if_neg (fun hc => absurd hc.2 (not_le.mpr h))]

theorem toggleOn_shown (t : Int) (rng : Nat → Cell) (fuel : Nat) (g : Game)
    (h : g.showPowerup = true) :
    Game.togglePowerupOn t rng fuel g = some g := by
  unfold Game.togglePowerupOn
  rw [if_neg (fun hc => by rw [h] at hc; exact Bool.true_eq_false.mp hc.1)]

theorem checkCollisions_fields (g : Game) :
    (Game.checkCollisions g).snake1 = g.snake1 ∧
    (Game.checkCollisions g).snake2 = g.snake2 ∧
    (Game.checkCollisions g).foodPos = g.foodPos ∧
    (Game.checkCollisions g).powerupPos = g.powerupPos ∧
    (Game.checkCollisions g).showPowerup = g.showPowerup ∧
    (Game.checkCollisions g).score1 = g.score1 ∧
    (Game.checkCollisions g).score2 = g.score2 ∧
    (Game.checkCollisions g).powerupOnTime = g.powerupOnTime ∧
    (Game.checkCollisions g).powerupOffTime = g.powerupOffTime ∧
    (Game.checkCollisions g).powerupTimeGap = g.powerupTimeGap := by
  rw [checkCollisions_spec]
  cases lastFiredWinner (collisionChecks g) <;> simp

/-- Game::update with the running branch taken, written with
Option.bind. -/
theorem update_run (t : Int) (rngA rngB rngP : Nat → Cell) (fuel : Nat)
    (g : Game) (hrun : g.running = true) :
    Game.update t rngA rngB rngP fuel g =
      Option.bind
        (Game.checkFoodCollision1 rngA fuel
          { g with snake1 := g.snake1.update, snake2 := g.snake2.update })
        (fun g2 => Option.bind (Game.checkFoodCollision2 rngB fuel g2)
          (fun g3 => Game.togglePowerupOn t rngP fuel
            (Game.togglePowerupOff t (Game.checkCollisions
              (Game.checkPowerupCollision2 (Game.checkPowerupCollision1 g3)))))) := by
  unfold Game.update
  rw [if_pos hrun]
  dsimp only
  cases Game.checkFoodCollision1 rngA fuel
      { g with snake1 := g.snake1.update, snake2 := g.snake2.update } with
  | none => simp
  | some g2 =>
    simp only [Option.some_bind]
    cases Game.checkFoodCollision2 rngB fuel g2 with
    | none => simp
    | some g3 => simp

/-- The head of a moved snake is the old head plus the direction. -/
theorem Snake.update_headD (s : Snake) (hd : Pos) (rest : List Pos)
    (hbody : s.body = hd :: rest) :
    s.update.body.headD (0, 0) = Vector2Add hd s.direction := by
  unfold Snake.update
  cases hs : s.addSegment <;> simp [hbody, hs]

/-! ### Gap preservation through one tick -/

theorem checkFood1_gap (rng : Nat → Cell) (fuel : Nat) (g g2 : Game)
    (h : Game.checkFoodCollision1 rng fuel g = some g2) :
    g2.powerupTimeGap = g.powerupTimeGap := by
  unfold Game.checkFoodCollision1 at h
  by_cases hc : g.snake1.body.headD (0, 0) = g.foodPos
  · rw [if_pos hc] at h
    cases hG : GenRandPos rng g.snake1.body g.snake2.body 0 fuel with
    | none => rw [hG] at h; cases h
    | some p => rw [hG] at h; injection h with h; subst h; rfl
  · rw [if_neg hc] at h; injection h with h; subst h; rfl

theorem checkFood2_gap (rng : Nat → Cell) (fuel : Nat) (g g2 : Game)
    (h : Game.checkFoodCollision2 rng fuel g = some g2) :
    g2.powerupTimeGap = g.powerupTimeGap := by
  unfold Game.checkFoodCollision2 at h
  by_cases hc : g.snake2.body.headD (0, 0) = g.foodPos
  · rw [if_pos hc] at h
    cases hG : GenRandPos rng g.snake1.body g.snake2.body 0 fuel with
    | none => rw [hG] at h; cases h
    | some p => rw [hG] at h; injection h with h; subst h; rfl
  · rw [if_neg hc] at h; injection h with h; subst h; rfl

theorem checkPow1_gap (g : Game) :
    (Game.checkPowerupCollision1 g).powerupTimeGap = g.powerupTimeGap := by
  unfold Game.checkPowerupCollision1; split <;> rfl

theorem checkPow2_gap (g : Game) :
    (Game.checkPowerupCollision2 g).powerupTimeGap = g.powerupTimeGap := by
  unfold Game.checkPowerupCollision2; split <;> rfl

theorem toggleOff_gap (t : Int) (g : Game) :
    (Game.togglePowerupOff t g).powerupTimeGap = g.powerupTimeGap := by
  unfold Game.togglePowerupOff; split <;> rfl

theorem toggleOn_gap (t : Int) (rng : Nat → Cell) (fuel : Nat) (g g2 : Game)
    (h : Game.togglePowerupOn t rng fuel g = some g2) :
    g2.powerupTimeGap = g.powerupTimeGap := by
  unfold Game.togglePowerupOn at h
  by_cases hc : g.showPowerup = false ∧ g.powerupTimeGap ≤ t - g.powerupOffTime
  · rw [if_pos hc] at h
    cases hG : GenRandPos rng g.snake1.body g.snake2.body 0 fuel with
    | none => rw [hG] at h; cases h
    | some p => rw [hG] at h; injection h with h; subst h; rfl
  · rw [if_neg hc] at h; injection h with h; subst h; rfl

theorem update_gap (t : Int) (rngA rngB rngP : Nat → Cell) (fuel : Nat)
    (g g' : Game) (h : Game.update t rngA rngB rngP fuel g = some g') :
    g'.powerupTimeGap = g.powerupTimeGap := by
  by_cases hrun : g.running = true
  · rw [update_run t rngA rngB rngP fuel g hrun] at h
    cases h1 : Game.checkFoodCollision1 rngA fuel
        { g with snake1 := g.snake1.update, snake2 := g.snake2.update } with
    | none => rw [h1] at h; cases h
    | some g2 =>
      rw [h1, Option.some_bind] at h
      cases h2 : Game.checkFoodCollision2 rngB fuel g2 with
      | none => rw [h2] at h; cases h
      | some g3 =>
        rw [h2, Option.some_bind] at h
        have e1 := checkFood1_gap rngA fuel _ _ h1
        have e2 := checkFood2_gap rngB fuel _ _ h2
        have e3 := checkPow1_gap g3
        have e4 := checkPow2_gap (Game.checkPowerupCollision1 g3)
        have e5 := (checkCollisions_fields
          (Game.checkPowerupCollision2 (Game.checkPowerupCollision1 g3))).2.2.2.2.2.2.2.2.2
        have e6 := toggleOff_gap t (Game.checkCollisions
          (Game.checkPowerupCollision2 (Game.checkPowerupCollision1 g3)))
        have e7 := toggleOn_gap t rngP fuel _ _ h
        rw [e7, e6, e5, e4, e3, e2, e1]
  · unfold Game.update at h
    rw [if_neg hrun] at h
    injection h with h; subst h; rfl

/-! ### C4: reset -/

/-- A game-over state in which snake 1 still has growth pending (it
ate on its final tick). -/
def cexGame4 : Game :=
  { snake1 := ⟨[(10, 9), (9, 9), (8, 9)], (1, 0), true⟩,
    snake2 := ⟨[(25, 9), (24, 9), (23, 9)], (1, 0), false⟩,
    foodPos := (5, 5), powerupPos := (-1, -1), running := false,
    score1 := 3, score2 := 7, showPowerup := false,
    powerupOnTime := 2, powerupOffTime := 4, powerupTimeGap := 16,
    gameOver := true, winnerMessage := "Player 1 Wins!" }

/-- C4 counterexample: resetting a game-over state in which snake 1
has growth pending leaves the flag set — Snake::reset never writes
addSegment, so pending growth is not cleared as the claim states. -/
theorem C4_pending_growth_survives_reset :
    cexGame4.snake1.addSegment = true ∧
    (Game.reset rngZ 1 cexGame4).map (fun g => g.snake1.addSegment) = some true :=
  ⟨rfl, rfl⟩

/-- C4 (amended): for every game state, reset restores both snakes to
their fixed 3-segment starting poses, zeroes both scores, relocates
the food avoiding both fresh bodies, deactivates and hides the
power-up, clears the winner message and returns the state to Running —
but each snake's pending-growth flag is left exactly as it was
(Snake::reset does not touch addSegment). -/
theorem C4_reset_state (rngF : Nat → Cell) (fuel : Nat) (g g' : Game)
    (h : Game.reset rngF fuel g = some g') :
    g'.snake1.body = [(6, 9), (5, 9), (4, 9)] ∧
    g'.snake1.direction = (1, 0) ∧
    g'.snake2.body = [(18, 9), (19, 9), (20, 9)] ∧
    g'.snake2.direction = (-1, 0) ∧
    g'.snake1.addSegment = g.snake1.addSegment ∧
    g'.snake2.addSegment = g.snake2.addSegment ∧
    g'.score1 = 0 ∧ g'.score2 = 0 ∧
    elementInDeque g'.foodPos g'.snake1.body = false ∧
    elementInDeque g'.foodPos g'.snake2.body = false ∧
    g'.powerupPos = (-1, -1) ∧ g'.showPowerup = false ∧
    g'.running = true ∧ g'.gameOver = false ∧ g'.winnerMessage = "" := by
  unfold Game.reset at h
  dsimp only at h
  cases hG : GenRandPos rngF (g.snake1.reset (6, 9) (1, 0)).body
      (g.snake2.reset (18, 9) (-1, 0)).body 0 fuel with
  | none => rw [hG] at h; cases h
  | some p =>
    rw [hG] at h
    obtain ⟨f1, f2, -⟩ := GenRandPos_eq_some _ _ _ _ _ _ hG
    injection h with h
    subst h
    exact ⟨rfl, rfl, rfl, rfl, rfl, rfl, rfl, rfl, f1, f2, rfl, rfl, rfl, rfl, rfl⟩

/-- The state Game::reset produces from cexGame4 with the constant
sampler. -/
def witReset : Game :=
  { snake1 := ⟨[(6, 9), (5, 9), (4, 9)], (1, 0), true⟩,
    snake2 := ⟨[(18, 9), (19, 9), (20, 9)], (-1, 0), false⟩,
    foodPos := (0, 0), powerupPos := (-1, -1), running := true,
    score1 := 0, score2 := 0, showPowerup := false,
    powerupOnTime := 2, powerupOffTime := 4, powerupTimeGap := 16,
    gameOver := false, winnerMessage := "" }

/-- C4 witness: the amended reset theorem applied to the concrete
game-over state. -/
theorem C4_reset_state_witness :
    witReset.snake1.body = [(6, 9), (5, 9), (4, 9)] ∧
    witReset.snake1.direction = (1, 0) ∧
    witReset.snake2.body = [(18, 9), (19, 9), (20, 9)] ∧
    witReset.snake2.direction = (-1, 0) ∧
    witReset.snake1.addSegment = cexGame4.snake1.addSegment ∧
    witReset.snake2.addSegment = cexGame4.snake2.addSegment ∧
    witReset.score1 = 0 ∧ witReset.score2 = 0 ∧
    elementInDeque witReset.foodPos witReset.snake1.body = false ∧
    elementInDeque witReset.foodPos witReset.snake2.body = false ∧
    witReset.powerupPos = (-1, -1) ∧ witReset.showPowerup = false ∧
    witReset.running = true ∧ witReset.gameOver = false ∧
    witReset.winnerMessage = "" :=
  C4_reset_state rngZ 1 cexGame4 witReset rfl

/-! ### C5: power-up visibility timers -/

/-- A running state in which the power-up has just been shown at time
0 (togglePowerupOn stamps powerupOnTime = powerupOffTime = the show
time). -/
def cexGame5 : Game :=
  { snake1 := ⟨[(2, 2), (1, 2), (0, 2)], (1, 0), false⟩,
    snake2 := ⟨[(22, 22), (23, 22), (24, 22)], (-1, 0), false⟩,
    foodPos := (5, 5), powerupPos := (3, 3), running := true,
    score1 := 0, score2 := 0, showPowerup := true,
    powerupOnTime := 0, powerupOffTime := 0, powerupTimeGap := 15,
    gameOver := false, winnerMessage := "" }

/-- C5 counterexample: power-up shown at time 0 with gap 15; the off
toggle hides it at time 10, but the on toggle shows it again at time
15 — only 5 time-units after it was hidden, earlier than the
randomized interval (15) after hiding, because powerupOffTime is
stamped when the power-up is SHOWN, not when it is hidden. -/
theorem C5_reappears_before_gap :
    (Game.togglePowerupOff 10 cexGame5).showPowerup = false ∧
    (Game.togglePowerupOn 15 rngZ 1 (Game.togglePowerupOff 10 cexGame5)).map
      (fun g => g.showPowerup) = some true :=
  ⟨rfl, rfl⟩

/-- C5 (amended): while visible, the power-up is hidden and its
position deactivated once at least 10 time-units have elapsed since
powerupOnTime (the time it was shown), and hiding does not touch
powerupOffTime; while hidden, it is shown and relocated avoiding both
snakes exactly when at least powerupTimeGap time-units have elapsed
since powerupOffTime — which is stamped at the previous SHOW event,
not at hiding, so after a timed hide the power-up reappears
powerupTimeGap − 10 time-units after it was hidden; and the gap is
drawn once at construction and preserved unchanged by every tick. -/
theorem C5_powerup_visibility (g : Game) (t : Int) (rng rngA rngB rngP : Nat → Cell)
    (fuel : Nat) :
    (g.showPowerup = true → 10 ≤ t - g.powerupOnTime →
      (Game.togglePowerupOff t g).showPowerup = false ∧
      (Game.togglePowerupOff t g).powerupPos = (-1, -1) ∧
      (Game.togglePowerupOff t g).powerupOffTime = g.powerupOffTime) ∧
    (g.showPowerup = true → t - g.powerupOnTime < 10 →
      Game.togglePowerupOff t g = g) ∧
    (g.showPowerup = false → g.powerupTimeGap ≤ t - g.powerupOffTime →
      ∀ g', Game.togglePowerupOn t rng fuel g = some g' →
        g'.showPowerup = true ∧ g'.powerupOnTime = t ∧ g'.powerupOffTime = t ∧
        elementInDeque g'.powerupPos g.snake1.body = false ∧
        elementInDeque g'.powerupPos g.snake2.body = false) ∧
    (g.showPowerup = false → t - g.powerupOffTime < g.powerupTimeGap →
      Game.togglePowerupOn t rng fuel g = some g) ∧
    (∀ g', Game.update t rngA rngB rngP fuel g = some g' →
      g'.powerupTimeGap = g.powerupTimeGap) := by
  refine ⟨?_, ?_, ?_, ?_, ?_⟩
  · intro hs ht
    unfold Game.togglePowerupOff
    rw [if_pos ⟨hs, ht⟩]
    exact ⟨rfl, rfl, rfl⟩
  · intro hs ht
    unfold Game.togglePowerupOff
    rw [if_neg (fun hc => absurd hc.2 (not_le.mpr ht))]
  · intro hs ht g' h
    unfold Game.togglePowerupOn at h
    rw [if_pos ⟨hs, ht⟩] at h
    cases hG : GenRandPos rng g.snake1.body g.snake2.body 0 fuel with
    | none => rw [hG] at h; cases h
    | some p =>
      rw [hG] at h
      obtain ⟨f1, f2, -⟩ := GenRandPos_eq_some _ _ _ _ _ _ hG
      injection h with h
      subst h
      exact ⟨rfl, rfl, rfl, f1, f2⟩
  · intro hs ht
    exact toggleOn_early t rng fuel g ht
  · intro g' h
    exact update_gap t rngA rngB rngP fuel g g' h

/-- C5 witness: the hide branch of the theorem applied at the concrete
shown state, ten time-units after it was shown. -/
theorem C5_powerup_visibility_witness :
    (Game.togglePowerupOff 10 cexGame5).showPowerup = false ∧
    (Game.togglePowerupOff 10 cexGame5).powerupPos = (-1, -1) ∧
    (Game.togglePowerupOff 10 cexGame5).powerupOffTime = cexGame5.powerupOffTime :=
  (C5_powerup_visibility cexGame5 10 rngZ rngZ rngZ rngZ 1).1 rfl (by decide)

/-! ### Body shape and field transport through the tick stages -/

theorem Snake.update_body (s : Snake) (hd : Pos) (rest : List Pos)
    (hbody : s.body = hd :: rest) :
    s.update.body = Vector2Add hd s.direction ::
      (if s.addSegment then hd :: rest else (hd :: rest).dropLast) := by
  unfold Snake.update
  cases hs : s.addSegment <;> simp [hbody, hs]

theorem Snake.update_length (s : Snake) (hd : Pos) (rest : List Pos)
    (hbody : s.body = hd :: rest) :
    s.update.body.length =
      if s.addSegment then s.body.length + 1 else s.body.length := by
  unfold Snake.update
  cases hs : s.addSegment <;> simp [hbody, hs]

theorem Snake.update_addSegment (s : Snake) : s.update.addSegment = false := by
  unfold Snake.update
  cases hs : s.addSegment <;> simp [hs]

theorem elementInDeque_head_ne (x y : Pos) (l : List Pos)
    (h : elementInDeque x (y :: l) = false) : ¬ y = x := by
  intro he
  simp only [elementInDeque, if_pos he] at h
  exact absurd h (by simp)

theorem checkFood1_keeps (rng : Nat → Cell) (fuel : Nat) (g g2 : Game)
    (h : Game.checkFoodCollision1 rng fuel g = some g2) :
    g2.snake2 = g.snake2 ∧ g2.snake1.body = g.snake1.body ∧
    g2.snake1.direction = g.snake1.direction ∧
    g2.powerupPos = g.powerupPos ∧ g2.showPowerup = g.showPowerup ∧
    g2.score2 = g.score2 ∧ g2.powerupOnTime = g.powerupOnTime ∧
    g2.powerupOffTime = g.powerupOffTime ∧
    g2.powerupTimeGap = g.powerupTimeGap ∧ g2.running = g.running := by
  unfold Game.checkFoodCollision1 at h
  by_cases hc : g.snake1.body.headD (0, 0) = g.foodPos
  · rw [if_pos hc] at h
    cases hG : GenRandPos rng g.snake1.body g.snake2.body 0 fuel with
    | none => rw [hG] at h; cases h
    | some p =>
      rw [hG] at h; injection h with h; subst h
      exact ⟨rfl, rfl, rfl, rfl, rfl, rfl, rfl, rfl, rfl, rfl⟩
  · rw [if_neg hc] at h; injection h with h; subst h
    exact ⟨rfl, rfl, rfl, rfl, rfl, rfl, rfl, rfl, rfl, rfl⟩

theorem checkFood2_keeps (rng : Nat → Cell) (fuel : Nat) (g g2 : Game)
    (h : Game.checkFoodCollision2 rng fuel g = some g2) :
    g2.snake1 = g.snake1 ∧ g2.snake2.body = g.snake2.body ∧
    g2.snake2.direction = g.snake2.direction ∧
    g2.powerupPos = g.powerupPos ∧ g2.showPowerup = g.showPowerup ∧
    g2.score1 = g.score1 ∧ g2.powerupOnTime = g.powerupOnTime ∧
    g2.powerupOffTime = g.powerupOffTime ∧
    g2.powerupTimeGap = g.powerupTimeGap ∧ g2.running = g.running := by
  unfold Game.checkFoodCollision2 at h
  by_cases hc : g.snake2.body.headD (0, 0) = g.foodPos
  · rw [if_pos hc] at h
    cases hG : GenRandPos rng g.snake1.body g.snake2.body 0 fuel with
    | none => rw [hG] at h; cases h
    | some p =>
      rw [hG] at h; injection h with h; subst h
      exact ⟨rfl, rfl, rfl, rfl, rfl, rfl, rfl, rfl, rfl, rfl⟩
  · rw [if_neg hc] at h; injection h with h; subst h
    exact ⟨rfl, rfl, rfl, rfl, rfl, rfl, rfl, rfl, rfl, rfl⟩

theorem checkPow2_keeps (g : Game) :
    (Game.checkPowerupCollision2 g).snake1 = g.snake1 ∧
    (Game.checkPowerupCollision2 g).foodPos = g.foodPos ∧
    (Game.checkPowerupCollision2 g).score1 = g.score1 ∧
    (Game.checkPowerupCollision2 g).snake2.body = g.snake2.body ∧
    (Game.checkPowerupCollision2 g).powerupOffTime = g.powerupOffTime ∧
    (Game.checkPowerupCollision2 g).powerupTimeGap = g.powerupTimeGap := by
  unfold Game.checkPowerupCollision2
  split <;> exact ⟨rfl, rfl, rfl, rfl, rfl, rfl⟩

theorem toggleOff_keeps (t : Int) (g : Game) :
    (Game.togglePowerupOff t g).snake1 = g.snake1 ∧
    (Game.togglePowerupOff t g).snake2 = g.snake2 ∧
    (Game.togglePowerupOff t g).foodPos = g.foodPos ∧
    (Game.togglePowerupOff t g).score1 = g.score1 ∧
    (Game.togglePowerupOff t g).score2 = g.score2 ∧
    (Game.togglePowerupOff t g).powerupOffTime = g.powerupOffTime := by
  unfold Game.togglePowerupOff
  split <;> exact ⟨rfl, rfl, rfl, rfl, rfl, rfl⟩

theorem toggleOn_keeps (t : Int) (rng : Nat → Cell) (fuel : Nat) (g g2 : Game)
    (h : Game.togglePowerupOn t rng fuel g = some g2) :
    g2.snake1 = g.snake1 ∧ g2.snake2 = g.snake2 ∧ g2.foodPos = g.foodPos ∧
    g2.score1 = g.score1 ∧ g2.score2 = g.score2 := by
  unfold Game.togglePowerupOn at h
  by_cases hc : g.showPowerup = false ∧ g.powerupTimeGap ≤ t - g.powerupOffTime
  · rw [if_pos hc] at h
    cases hG : GenRandPos rng g.snake1.body g.snake2.body 0 fuel with
    | none => rw [hG] at h; cases h
    | some p =>
      rw [hG] at h; injection h with h; subst h
      exact ⟨rfl, rfl, rfl, rfl, rfl⟩
  · rw [if_neg hc] at h; injection h with h; subst h
    exact ⟨rfl, rfl, rfl, rfl, rfl⟩

/-! ### C9: hidden power-up and the sentinel position -/

theorem checkPow1_inv (g : Game)
    (hI : g.showPowerup = false → g.powerupPos = (-1, -1)) :
    (Game.checkPowerupCollision1 g).showPowerup = false →
      (Game.checkPowerupCollision1 g).powerupPos = (-1, -1) := by
  unfold Game.checkPowerupCollision1
  split
  · intro _; rfl
  · exact hI

theorem checkPow2_inv (g : Game)
    (hI : g.showPowerup = false → g.powerupPos = (-1, -1)) :
    (Game.checkPowerupCollision2 g).showPowerup = false →
      (Game.checkPowerupCollision2 g).powerupPos = (-1, -1) := by
  unfold Game.checkPowerupCollision2
  split
  · intro _; rfl
  · exact hI

theorem checkColl_inv (g : Game)
    (hI : g.showPowerup = false → g.powerupPos = (-1, -1)) :
    (Game.checkCollisions g).showPowerup = false →
      (Game.checkCollisions g).powerupPos = (-1, -1) := by
  have f := checkCollisions_fields g
  intro hs
  rw [f.2.2.2.1]
  exact hI (by rw [← f.2.2.2.2.1]; exact hs)

theorem toggleOff_inv (t : Int) (g : Game)
    (hI : g.showPowerup = false → g.powerupPos = (-1, -1)) :
    (Game.togglePowerupOff t g).showPowerup = false →
      (Game.togglePowerupOff t g).powerupPos = (-1, -1) := by
  unfold Game.togglePowerupOff
  split
  · intro _; rfl
  · exact hI

theorem toggleOn_inv (t : Int) (rng : Nat → Cell) (fuel : Nat) (g g2 : Game)
    (h : Game.togglePowerupOn t rng fuel g = some g2)
    (hI : g.showPowerup = false → g.powerupPos = (-1, -1)) :
    g2.showPowerup = false → g2.powerupPos = (-1, -1) := by
  unfold Game.togglePowerupOn at h
  by_cases hc : g.showPowerup = false ∧ g.powerupTimeGap ≤ t - g.powerupOffTime
  · rw [if_pos hc] at h
    cases hG : GenRandPos rng g.snake1.body g.snake2.body 0 fuel with
    | none => rw [hG] at h; cases h
    | some p =>
      rw [hG] at h; injection h with h; subst h
      intro hs; cases hs
  · rw [if_neg hc] at h; injection h with h; subst h
    exact hI

/-- A random stream that always samples cell (7, 9), one step ahead of
snake 1's starting head. -/
def rngP79 : Nat → Cell := fun _ => (7, 9)

/-- C9 counterexample: immediately after construction the power-up is
hidden yet its position is a real in-grid cell, not the sentinel
(-1, -1) — the constructor places the power-up with GenRandPos while
showPowerup starts false — and on the very first tick snake 1's head
reaches that cell and consumes the hidden power-up: score1 becomes 5
while the power-up was never visible. -/
theorem C9_initial_state_refutes_sentinel :
    (Game.create rngZ rngP79 1 0).map (fun g => (g.showPowerup, g.powerupPos)) =
      some (false, (7, 9)) ∧
    ¬ (Game.create rngZ rngP79 1 0).map (fun g => (g.showPowerup, g.powerupPos)) =
      some (false, (-1, -1)) ∧
    ((Game.create rngZ rngP79 1 0).bind (Game.update 1 rngZ rngZ rngZ 1)).map
      (fun g => (g.score1, g.showPowerup)) = some (5, false) := by
  refine ⟨rfl, ?_, rfl⟩
  decide

/-- C9 (amended): the hidden-implies-sentinel invariant is preserved
by every tick and established by reset — but not by construction (see
the counterexample): after construction the hidden power-up holds an
in-grid position until its first consumption, hiding or reset.  And
whenever the invariant holds and the power-up is hidden, a snake whose
head is in the grid cannot consume it: both power-up checks are
no-ops on a sentinel position. -/
theorem C9_hidden_sentinel (t : Int) (rngA rngB rngP rngF : Nat → Cell)
    (fuel : Nat) (g : Game) :
    (∀ g', (g.showPowerup = false → g.powerupPos = (-1, -1)) →
      Game.update t rngA rngB rngP fuel g = some g' →
      g'.showPowerup = false → g'.powerupPos = (-1, -1)) ∧
    (∀ g2, Game.reset rngF fuel g = some g2 →
      g2.showPowerup = false ∧ g2.powerupPos = (-1, -1)) ∧
    (g.powerupPos = (-1, -1) → 0 ≤ (g.snake1.body.headD (0, 0)).1 →
      Game.checkPowerupCollision1 g = g) ∧
    (g.powerupPos = (-1, -1) → 0 ≤ (g.snake2.body.headD (0, 0)).1 →
      Game.checkPowerupCollision2 g = g) := by
  refine ⟨?_, ?_, ?_, ?_⟩
  · intro g' hI hup
    by_cases hrun : g.running = true
    · rw [update_run t rngA rngB rngP fuel g hrun] at hup
      cases hF1 : Game.checkFoodCollision1 rngA fuel
          { g with snake1 := g.snake1.update, snake2 := g.snake2.update } with
      | none => rw [hF1] at hup; cases hup
      | some g2 =>
        rw [hF1, Option.some_bind] at hup
        cases hF2 : Game.checkFoodCollision2 rngB fuel g2 with
        | none => rw [hF2] at hup; cases hup
        | some g3 =>
          rw [hF2, Option.some_bind] at hup
          have k1 := checkFood1_keeps rngA fuel _ _ hF1
          have k2 := checkFood2_keeps rngB fuel _ _ hF2
          have hI2 : g2.showPowerup = false → g2.powerupPos = (-1, -1) := by
            intro hs
            rw [k1.2.2.2.1]
            exact hI (by rw [← k1.2.2.2.2.1]; exact hs)
          have hI3 : g3.showPowerup = false → g3.powerupPos = (-1, -1) := by
            intro hs
            rw [k2.2.2.2.1]
            exact hI2 (by rw [← k2.2.2.2.2.1]; exact hs)
          exact toggleOn_inv t rngP fuel _ _ hup
            (toggleOff_inv t _ (checkColl_inv _ (checkPow2_inv _ (checkPow1_inv _ hI3))))
    · unfold Game.update at hup
      rw [if_neg hrun] at hup
      injection hup with hup
      subst hup
      exact hI
  · intro g2 h
    unfold Game.reset at h
    dsimp only at h
    cases hG : GenRandPos rngF (g.snake1.reset (6, 9) (1, 0)).body
        (g.snake2.reset (18, 9) (-1, 0)).body 0 fuel with
    | none => rw [hG] at h; cases h
    | some p =>
      rw [hG] at h; injection h with h; subst h
      exact ⟨rfl, rfl⟩
  · intro hp hx
    refine checkPow1_miss g (fun he => ?_)
    rw [hp] at he
    rw [he] at hx
    exact absurd hx (by decide)
  · intro hp hx
    refine checkPow2_miss g (fun he => ?_)
    rw [hp] at he
    rw [he] at hx
    exact absurd hx (by decide)

/-- C9 witness: the reset branch of the theorem at the concrete
game-over state: the reset state is hidden with the sentinel position. -/
theorem C9_hidden_sentinel_witness :
    witReset.showPowerup = false ∧ witReset.powerupPos = (-1, -1) :=
  (C9_hidden_sentinel 0 rngZ rngZ rngZ rngZ 1 cexGame4).2.1 witReset rfl

theorem checkFood1_hit (rng : Nat → Cell) (fuel : Nat) (g : Game) (p : Pos)
    (hc : g.snake1.body.headD (0, 0) = g.foodPos)
    (hG : GenRandPos rng g.snake1.body g.snake2.body 0 fuel = some p) :
    Game.checkFoodCollision1 rng fuel g =
      some { g with
          foodPos := p,
          snake1 := { g.snake1 with addSegment := true },
          score1 := g.score1 + 1 } := by
  unfold Game.checkFoodCollision1
  rw [if_pos hc, hG]

theorem checkFood1_stuck (rng : Nat → Cell) (fuel : Nat) (g : Game)
    (hc : g.snake1.body.headD (0, 0) = g.foodPos)
    (hG : GenRandPos rng g.snake1.body g.snake2.body 0 fuel = none) :
    Game.checkFoodCollision1 rng fuel g = none := by
  unfold Game.checkFoodCollision1
  rw [if_pos hc, hG]

theorem checkFood2_hit (rng : Nat → Cell) (fuel : Nat) (g : Game) (p : Pos)
    (hc : g.snake2.body.headD (0, 0) = g.foodPos)
    (hG : GenRandPos rng g.snake1.body g.snake2.body 0 fuel = some p) :
    Game.checkFoodCollision2 rng fuel g =
      some { g with
          foodPos := p,
          snake2 := { g.snake2 with addSegment := true },
          score2 := g.score2 + 1 } := by
  unfold Game.checkFoodCollision2
  rw [if_pos hc, hG]

theorem checkFood2_stuck (rng : Nat → Cell) (fuel : Nat) (g : Game)
    (hc : g.snake2.body.headD (0, 0) = g.foodPos)
    (hG : GenRandPos rng g.snake1.body g.snake2.body 0 fuel = none) :
    Game.checkFoodCollision2 rng fuel g = none := by
  unfold Game.checkFoodCollision2
  rw [if_pos hc, hG]

/-- Facts carried from the state entering checkCollisions to the end
of the tick. -/
theorem tail_facts (t : Int) (rngP : Nat → Cell) (fuel : Nat) (gc g' : Game)
    (hup : Game.togglePowerupOn t rngP fuel
      (Game.togglePowerupOff t (Game.checkCollisions gc)) = some g') :
    g'.score1 = gc.score1 ∧ g'.score2 = gc.score2 ∧ g'.foodPos = gc.foodPos ∧
    g'.snake1 = gc.snake1 ∧ g'.snake2 = gc.snake2 := by
  have ko := toggleOn_keeps t rngP fuel _ _ hup
  have kf := toggleOff_keeps t (Game.checkCollisions gc)
  have kc := checkCollisions_fields gc
  refine ⟨?_, ?_, ?_, ?_, ?_⟩
  · rw [ko.2.2.2.1, kf.2.2.2.1, kc.2.2.2.2.2.1]
  · rw [ko.2.2.2.2, kf.2.2.2.2.1, kc.2.2.2.2.2.2.1]
  · rw [ko.2.2.1, kf.2.2.1, kc.2.2.1]
  · rw [ko.1, kf.1, kc.1]
  · rw [ko.2.1, kf.2.1, kc.2.1]

/-! ### C3: eating food -/

/-- A running state with the food directly in front of snake 1's
head. -/
def cexGame3 : Game :=
  { snake1 := ⟨[(4, 9), (3, 9), (2, 9)], (1, 0), false⟩,
    snake2 := ⟨[(18, 9), (19, 9), (20, 9)], (-1, 0), false⟩,
    foodPos := (5, 9), powerupPos := (-1, -1), running := true,
    score1 := 0, score2 := 0, showPowerup := false,
    powerupOnTime := 0, powerupOffTime := 0, powerupTimeGap := 15,
    gameOver := false, winnerMessage := "" }

/-- C3 counterexample: with the food one cell ahead of snake 1's head,
one tick yields score1 = 1 (the snake ate) but the body length is
still 3, not 4: movement already popped the tail before the food check
set the growth flag, so the body grows only on the next tick. -/
theorem C3_growth_deferred :
    Vector2Add (cexGame3.snake1.body.headD (0, 0)) cexGame3.snake1.direction =
      cexGame3.foodPos ∧
    (Game.update 1 rngZ rngZ rngZ 1 cexGame3).map
      (fun g => (g.score1, g.snake1.body.length, g.snake1.addSegment)) =
      some (1, 3, true) :=
  ⟨rfl, rfl⟩

/-- C3 (amended): in a running state with the food exactly one cell
ahead of a snake's head, one tick adds exactly 1 to that snake's score
and sets its pending-growth flag; the body length changes this tick
only by growth already pending from an earlier tick (unchanged if none
was pending, +1 if it was) — the newly eaten food's growth
materialises on the following tick; the relocated food is a member of
neither snake's body.  For snake 2 the statement needs snake 1 not to
reach the food on the same tick, since the checks run in order and
snake 1 would consume it first; heads on the power-up are excluded so
the +1 is exact. -/
theorem C3_eat_effects (t : Int) (rngA rngB rngP : Nat → Cell) (fuel : Nat)
    (g g' : Game) (h1 h2 : Pos) (r1 r2 : List Pos)
    (hrun : g.running = true)
    (hb1 : g.snake1.body = h1 :: r1) (hb2 : g.snake2.body = h2 :: r2)
    (hup : Game.update t rngA rngB rngP fuel g = some g') :
    (Vector2Add h1 g.snake1.direction = g.foodPos →
     ¬ Vector2Add h1 g.snake1.direction = g.powerupPos →
      g'.score1 = g.score1 + 1 ∧ g'.snake1.addSegment = true ∧
      g'.snake1.body.length =
        (if g.snake1.addSegment then g.snake1.body.length + 1
          else g.snake1.body.length) ∧
      elementInDeque g'.foodPos g'.snake1.body = false ∧
      elementInDeque g'.foodPos g'.snake2.body = false) ∧
    (Vector2Add h2 g.snake2.direction = g.foodPos →
     ¬ Vector2Add h1 g.snake1.direction = g.foodPos →
     ¬ Vector2Add h1 g.snake1.direction = g.powerupPos →
     ¬ Vector2Add h2 g.snake2.direction = g.powerupPos →
      g'.score2 = g.score2 + 1 ∧ g'.snake2.addSegment = true ∧
      g'.snake2.body.length =
        (if g.snake2.addSegment then g.snake2.body.length + 1
          else g.snake2.body.length) ∧
      elementInDeque g'.foodPos g'.snake1.body = false ∧
      elementInDeque g'.foodPos g'.snake2.body = false) := by
  have hu1 : g.snake1.update.body.headD (0, 0) = Vector2Add h1 g.snake1.direction :=
    Snake.update_headD g.snake1 h1 r1 hb1
  have hu2 : g.snake2.update.body.headD (0, 0) = Vector2Add h2 g.snake2.direction :=
    Snake.update_headD g.snake2 h2 r2 hb2
  rw [update_run t rngA rngB rngP fuel g hrun] at hup
  set M : Game := { g with snake1 := g.snake1.update, snake2 := g.snake2.update }
    with hM
  constructor
  · intro hf hpw
    cases hG : GenRandPos rngA M.snake1.body M.snake2.body 0 fuel with
    | none =>
      rw [checkFood1_stuck rngA fuel M (hu1.trans hf) hG, Option.none_bind] at hup
      cases hup
    | some p =>
      obtain ⟨f1, f2, -⟩ := GenRandPos_eq_some rngA M.snake1.body M.snake2.body fuel 0 p hG
      have hne2 : ¬ Vector2Add h2 g.snake2.direction = p := by
        have hb2m := Snake.update_body g.snake2 h2 r2 hb2
        have f2' : elementInDeque p (Vector2Add h2 g.snake2.direction ::
            (if g.snake2.addSegment then h2 :: r2 else (h2 :: r2).dropLast)) = false := by
          rw [← hb2m]; exact f2
        exact elementInDeque_head_ne p _ _ f2'
      rw [checkFood1_hit rngA fuel M p (hu1.trans hf) hG] at hup
      simp only [Option.some_bind] at hup
      set G2 : Game := { M with
          foodPos := p,
          snake1 := { M.snake1 with addSegment := true },
          score1 := M.score1 + 1 } with hG2
      rw [checkFood2_miss rngB fuel G2 (fun he => hne2 (hu2.symm.trans he))] at hup
      simp only [Option.some_bind] at hup
      rw [checkPow1_miss G2 (fun he => hpw (hu1.symm.trans he))] at hup
      by_cases hpw2 : G2.snake2.body.headD (0, 0) = G2.powerupPos
      · rw [checkPow2_hit G2 hpw2] at hup
        have tf := tail_facts t rngP fuel _ g' hup
        refine ⟨tf.1, ?_, ?_, ?_, ?_⟩
        · rw [tf.2.2.2.1]
        · rw [tf.2.2.2.1]
          exact Snake.update_length g.snake1 h1 r1 hb1
        · rw [tf.2.2.1, tf.2.2.2.1]; exact f1
        · rw [tf.2.2.1, tf.2.2.2.2]; exact f2
      · rw [checkPow2_miss G2 hpw2] at hup
        have tf := tail_facts t rngP fuel _ g' hup
        refine ⟨tf.1, ?_, ?_, ?_, ?_⟩
        · rw [tf.2.2.2.1]
        · rw [tf.2.2.2.1]
          exact Snake.update_length g.snake1 h1 r1 hb1
        · rw [tf.2.2.1, tf.2.2.2.1]; exact f1
        · rw [tf.2.2.1, tf.2.2.2.2]; exact f2
  · intro hf2 hnf1 hpw1 hpw2
    rw [checkFood1_miss rngA fuel M (fun he => hnf1 (hu1.symm.trans he))] at hup
    simp only [Option.some_bind] at hup
    cases hG : GenRandPos rngB M.snake1.body M.snake2.body 0 fuel with
    | none =>
      rw [checkFood2_stuck rngB fuel M (hu2.trans hf2) hG, Option.none_bind] at hup
      cases hup
    | some p =>
      obtain ⟨f1, f2, -⟩ := GenRandPos_eq_some rngB M.snake1.body M.snake2.body fuel 0 p hG
      rw [checkFood2_hit rngB fuel M p (hu2.trans hf2) hG] at hup
      simp only [Option.some_bind] at hup
      set G3 : Game := { M with
          foodPos := p,
          snake2 := { M.snake2 with addSegment := true },
          score2 := M.score2 + 1 } with hG3
      rw [checkPow1_miss G3 (fun he => hpw1 (hu1.symm.trans he))] at hup
      rw [checkPow2_miss G3 (fun he => hpw2 (hu2.symm.trans he))] at hup
      have tf := tail_facts t rngP fuel _ g' hup
      refine ⟨tf.2.1, ?_, ?_, ?_, ?_⟩
      · rw [tf.2.2.2.2]
      · rw [tf.2.2.2.2]
        exact Snake.update_length g.snake2 h2 r2 hb2
      · rw [tf.2.2.1, tf.2.2.2.1]; exact f1
      · rw [tf.2.2.1, tf.2.2.2.2]; exact f2

/-- The state one tick of Game::update produces from cexGame3. -/
def witEat : Game :=
  { snake1 := ⟨[(5, 9), (4, 9), (3, 9)], (1, 0), true⟩,
    snake2 := ⟨[(17, 9), (18, 9), (19, 9)], (-1, 0), false⟩,
    foodPos := (0, 0), powerupPos := (-1, -1), running := true,
    score1 := 1, score2 := 0, showPowerup := false,
    powerupOnTime := 0, powerupOffTime := 0, powerupTimeGap := 15,
    gameOver := false, winnerMessage := "" }

/-- C3 witness: the amended theorem applied to the concrete state with
food ahead of snake 1. -/
theorem C3_eat_effects_witness :
    witEat.score1 = cexGame3.score1 + 1 ∧ witEat.snake1.addSegment = true ∧
    witEat.snake1.body.length =
      (if cexGame3.snake1.addSegment then cexGame3.snake1.body.length + 1
        else cexGame3.snake1.body.length) ∧
    elementInDeque witEat.foodPos witEat.snake1.body = false ∧
    elementInDeque witEat.foodPos witEat.snake2.body = false :=
  (C3_eat_effects 1 rngZ rngZ rngZ 1 cexGame3 witEat (4, 9) (18, 9)
    [(3, 9), (2, 9)] [(19, 9), (20, 9)] rfl rfl rfl rfl).1 rfl (by decide)

/-! ### C8: consuming the power-up -/

/-- A running state in which both heads land on the visible power-up
cell (5, 4) on the same tick. -/
def cexGame8 : Game :=
  { snake1 := ⟨[(4, 4), (3, 4), (2, 4)], (1, 0), false⟩,
    snake2 := ⟨[(6, 4), (7, 4), (8, 4)], (-1, 0), false⟩,
    foodPos := (0, 0), powerupPos := (5, 4), running := true,
    score1 := 0, score2 := 0, showPowerup := true,
    powerupOnTime := 0, powerupOffTime := 0, powerupTimeGap := 15,
    gameOver := false, winnerMessage := "" }

/-- C8 counterexample: snake 2's post-movement head equals the
power-up's position, yet after the tick snake 2 gained nothing — no
+5, no growth — because snake 1 is checked first, consumed the
power-up and left the sentinel position behind. -/
theorem C8_simultaneous_heads :
    Vector2Add (cexGame8.snake2.body.headD (0, 0)) cexGame8.snake2.direction =
      cexGame8.powerupPos ∧
    (Game.update 1 rngZ rngZ rngZ 1 cexGame8).map
      (fun g => (g.score1, g.score2, g.snake2.addSegment, g.showPowerup)) =
      some (5, 0, false, false) :=
  ⟨rfl, rfl⟩

/-- Endgame of a tick whose power-up was consumed: with the power-up
hidden and its reappearance timer not yet due, the two visibility
toggles are no-ops, so the tick ends at the post-collision state. -/
theorem consume_tail (t : Int) (rngP : Nat → Cell) (fuel : Nat) (gc g' : Game)
    (hup : Game.togglePowerupOn t rngP fuel
      (Game.togglePowerupOff t (Game.checkCollisions gc)) = some g')
    (hshow : gc.showPowerup = false)
    (hgap : t - gc.powerupOffTime < gc.powerupTimeGap) :
    g'.powerupPos = gc.powerupPos ∧ g'.showPowerup = gc.showPowerup ∧
    g'.snake1 = gc.snake1 ∧ g'.snake2 = gc.snake2 ∧
    g'.score1 = gc.score1 ∧ g'.score2 = gc.score2 := by
  have kc := checkCollisions_fields gc
  rw [toggleOff_hidden t (Game.checkCollisions gc)
    (by rw [kc.2.2.2.2.1]; exact hshow)] at hup
  rw [toggleOn_early t rngP fuel (Game.checkCollisions gc)
    (by rw [kc.2.2.2.2.2.2.2.2.1, kc.2.2.2.2.2.2.2.2.2]; exact hgap)] at hup
  injection hup with hup
  subst hup
  exact ⟨kc.2.2.2.1, kc.2.2.2.2.1, kc.1, kc.2.1,
    kc.2.2.2.2.2.1, kc.2.2.2.2.2.2.1⟩

/-- C8 (amended): in a running state in which a snake's post-movement
head equals the power-up position, the tick sets the sentinel position
(-1, -1), hides the power-up, requests growth on that snake and adds
exactly 5 to its score — provided that snake is the first in check
order to reach the power-up (for snake 2: snake 1's head must not also
be on it; when both heads land on it snake 1 takes it and snake 2 gets
nothing), the consuming snake's head is not simultaneously on the food
(the tick would then also add the food's +1 to the same score), and
the power-up is not re-shown by its timer in the same tick.  The other
snake may eat the food on the same tick; the effects are unchanged. -/
theorem C8_powerup_consumption (t : Int) (rngA rngB rngP : Nat → Cell)
    (fuel : Nat) (g g' : Game) (h1 h2 : Pos) (r1 r2 : List Pos)
    (hrun : g.running = true)
    (hb1 : g.snake1.body = h1 :: r1) (hb2 : g.snake2.body = h2 :: r2)
    (hgap : t - g.powerupOffTime < g.powerupTimeGap)
    (hup : Game.update t rngA rngB rngP fuel g = some g') :
    (Vector2Add h1 g.snake1.direction = g.powerupPos →
     ¬ Vector2Add h1 g.snake1.direction = g.foodPos →
      g'.powerupPos = (-1, -1) ∧ g'.showPowerup = false ∧
      g'.snake1.addSegment = true ∧ g'.score1 = g.score1 + 5) ∧
    (Vector2Add h2 g.snake2.direction = g.powerupPos →
     ¬ Vector2Add h1 g.snake1.direction = g.powerupPos →
     ¬ Vector2Add h2 g.snake2.direction = g.foodPos →
      g'.powerupPos = (-1, -1) ∧ g'.showPowerup = false ∧
      g'.snake2.addSegment = true ∧ g'.score2 = g.score2 + 5) := by
  have hu1 : g.snake1.update.body.headD (0, 0) = Vector2Add h1 g.snake1.direction :=
    Snake.update_headD g.snake1 h1 r1 hb1
  have hu2 : g.snake2.update.body.headD (0, 0) = Vector2Add h2 g.snake2.direction :=
    Snake.update_headD g.snake2 h2 r2 hb2
  rw [update_run t rngA rngB rngP fuel g hrun] at hup
  set M : Game := { g with snake1 := g.snake1.update, snake2 := g.snake2.update }
    with hM
  constructor
  · intro hf hnf1
    rw [checkFood1_miss rngA fuel M (fun he => hnf1 (hu1.symm.trans he))] at hup
    simp only [Option.some_bind] at hup
    by_cases hf2 : M.snake2.body.headD (0, 0) = M.foodPos
    · cases hG : GenRandPos rngB M.snake1.body M.snake2.body 0 fuel with
      | none =>
        rw [checkFood2_stuck rngB fuel M hf2 hG, Option.none_bind] at hup
        cases hup
      | some p =>
        rw [checkFood2_hit rngB fuel M p hf2 hG] at hup
        simp only [Option.some_bind] at hup
        set G2 : Game := { M with
            foodPos := p,
            snake2 := { M.snake2 with addSegment := true },
            score2 := M.score2 + 1 } with hG2
        rw [checkPow1_hit G2 (hu1.trans hf)] at hup
        set G4 : Game := { G2 with
            powerupPos := (-1, -1), showPowerup := false,
            snake1 := { G2.snake1 with addSegment := true },
            score1 := G2.score1 + 5 } with hG4
        by_cases hpw2 : G4.snake2.body.headD (0, 0) = G4.powerupPos
        · rw [checkPow2_hit G4 hpw2] at hup
          have tc := consume_tail t rngP fuel _ g' hup rfl hgap
          exact ⟨tc.1, tc.2.1, by rw [tc.2.2.1], tc.2.2.2.2.1⟩
        · rw [checkPow2_miss G4 hpw2] at hup
          have tc := consume_tail t rngP fuel _ g' hup rfl hgap
          exact ⟨tc.1, tc.2.1, by rw [tc.2.2.1], tc.2.2.2.2.1⟩
    · rw [checkFood2_miss rngB fuel M hf2] at hup
      simp only [Option.some_bind] at hup
      rw [checkPow1_hit M (hu1.trans hf)] at hup
      set G4 : Game := { M with
          powerupPos := (-1, -1), showPowerup := false,
          snake1 := { M.snake1 with addSegment := true },
          score1 := M.score1 + 5 } with hG4
      by_cases hpw2 : G4.snake2.body.headD (0, 0) = G4.powerupPos
      · rw [checkPow2_hit G4 hpw2] at hup
        have tc := consume_tail t rngP fuel _ g' hup rfl hgap
        exact ⟨tc.1, tc.2.1, by rw [tc.2.2.1], tc.2.2.2.2.1⟩
      · rw [checkPow2_miss G4 hpw2] at hup
        have tc := consume_tail t rngP fuel _ g' hup rfl hgap
        exact ⟨tc.1, tc.2.1, by rw [tc.2.2.1], tc.2.2.2.2.1⟩
  · intro hf hpw1 hnf2
    by_cases hf1 : M.snake1.body.headD (0, 0) = M.foodPos
    · cases hG : GenRandPos rngA M.snake1.body M.snake2.body 0 fuel with
      | none =>
        rw [checkFood1_stuck rngA fuel M hf1 hG, Option.none_bind] at hup
        cases hup
      | some p =>
        obtain ⟨f1, f2, -⟩ :=
          GenRandPos_eq_some rngA M.snake1.body M.snake2.body fuel 0 p hG
        have hne2 : ¬ Vector2Add h2 g.snake2.direction = p := by
          have hb2m := Snake.update_body g.snake2 h2 r2 hb2
          have f2' : elementInDeque p (Vector2Add h2 g.snake2.direction ::
              (if g.snake2.addSegment then h2 :: r2 else (h2 :: r2).dropLast)) = false := by
            rw [← hb2m]; exact f2
          exact elementInDeque_head_ne p _ _ f2'
        rw [checkFood1_hit rngA fuel M p hf1 hG] at hup
        simp only [Option.some_bind] at hup
        set G2 : Game := { M with
            foodPos := p,
            snake1 := { M.snake1 with addSegment := true },
            score1 := M.score1 + 1 } with hG2
        rw [checkFood2_miss rngB fuel G2 (fun he => hne2 (hu2.symm.trans he))] at hup
        simp only [Option.some_bind] at hup
        rw [checkPow1_miss G2 (fun he => hpw1 (hu1.symm.trans he))] at hup
        rw [checkPow2_hit G2 (hu2.trans hf)] at hup
        have tc := consume_tail t rngP fuel _ g' hup rfl hgap
        exact ⟨tc.1, tc.2.1, by rw [tc.2.2.2.1], tc.2.2.2.2.2⟩
    · rw [checkFood1_miss rngA fuel M hf1] at hup
      simp only [Option.some_bind] at hup
      rw [checkFood2_miss rngB fuel M (fun he => hnf2 (hu2.symm.trans he))] at hup
      simp only [Option.some_bind] at hup
      rw [checkPow1_miss M (fun he => hpw1 (hu1.symm.trans he))] at hup
      rw [checkPow2_hit M (hu2.trans hf)] at hup
      have tc := consume_tail t rngP fuel _ g' hup rfl hgap
      exact ⟨tc.1, tc.2.1, by rw [tc.2.2.2.1], tc.2.2.2.2.2⟩

/-- The state one tick of Game::update produces from cexGame8. -/
def witPow : Game :=
  { snake1 := ⟨[(5, 4), (4, 4), (3, 4)], (1, 0), true⟩,
    snake2 := ⟨[(5, 4), (6, 4), (7, 4)], (-1, 0), false⟩,
    foodPos := (0, 0), powerupPos := (-1, -1), running := false,
    score1 := 5, score2 := 0, showPowerup := false,
    powerupOnTime := 0, powerupOffTime := 0, powerupTimeGap := 15,
    gameOver := true, winnerMessage := "Player 1 Wins!" }

/-- C8 witness: the amended theorem applied to the concrete state
where snake 1 walks onto the visible power-up. -/
theorem C8_powerup_consumption_witness :
    witPow.powerupPos = (-1, -1) ∧ witPow.showPowerup = false ∧
    witPow.snake1.addSegment = true ∧ witPow.score1 = cexGame8.score1 + 5 :=
  (C8_powerup_consumption 1 rngZ rngZ rngZ 1 cexGame8 witPow (4, 4) (6, 4)
    [(3, 4), (2, 4)] [(7, 4), (8, 4)] rfl rfl rfl (by decide) rfl).1
    rfl (by decide)
